import Mathlib

/-!
# Verification of the `gpp_plugin` planning pipeline

A shallow embedding of `src/gpp_plugin/src/gpp_plugin/gpp_plugin.hpp` from the
`gpp` repository: the generic plugin-ownership abstraction (`ManagerInterface`,
`ArrayPluginManager`) and the three-stage planning pipeline
(`GlobalPlannerPipeline` with its pre-planning, planning and post-planning
stages, cooperative cancellation and the caller-facing `makePlan` shapes).

The repository ships only the header under `src/`; the member-function bodies
(`ArrayPluginManager::load`, `GlobalPlannerPipeline::initialize`,
`prePlanning`, `globalPlanning`, `postPlanning`, `makePlan`, `cancel`) live in
a `.cpp` file that is not part of `src/`.  Those operations are therefore
modelled from the specification (each such definition carries a doc comment
starting with `Modelled from the spec:`).  The only implementation present in
the header, `ManagerInterface::getPlugins`, is embedded directly from its
source body.

Pose, cost and tolerance values are opaque, borrowed data for this core, so
the development is parametric in the types `P` (pose), `C` (cost) and
`T` (tolerance).  Paths are `List P`.  The cross-thread cancellation flag is
embedded as an oracle `cancelO : Nat → Bool` giving the value the atomic flag
would be observed to hold at the k-th checkpoint read of a `plan` call, plus a
`cancel_` field holding the value of the flag when `plan` is entered.
-/

namespace gpp_plugin

/-- The pipeline stage an instance invocation belongs to. -/
inductive Stage where
  | pre
  | core
  | post
deriving DecidableEq, Repr

/-- One observed capability-instance invocation: the stage it belongs to and
the configured instance name.  Traces of `Event`s instrument the pipeline the
way the spec's "instrumented fakes recording call sequence and names" do. -/
structure Event where
  stage : Stage
  name : String
deriving DecidableEq, Repr

/-- Modelled from the spec (the `gpp_interface` pre-planning header is not
under `src/`): a pre-planning capability instance.
`transform(inout start, inout goal, inout tolerance) → success` with a
diagnostic message on failure; on success the three in-out parameters carry
the (possibly mutated) values out. -/
structure PrePlanningInterface (P T : Type) where
  transform : P → P → T → Except String (P × P × T)

/-- Modelled from the spec (the `nav_core` planner header is not under
`src/`): a core-planning capability instance.
`plan(start, goal) → (path, cost, success, message)`: success yields a path
and its cost, failure yields a diagnostic message. -/
structure BaseGlobalPlanner (P C : Type) where
  makePlan : P → P → Except String (List P × C)

/-- Modelled from the spec (the `gpp_interface` post-planning header is not
under `src/`): a post-planning capability instance.
`refine(inout path, inout cost) → success` with a diagnostic message on
failure; on success the refined path and cost are carried out. -/
structure PostPlanningInterface (P C : Type) where
  refine : List P → C → Except String (List P × C)

/-- A `{name, type}` entry of a configuration array, both tags literal
strings, mirroring the documented ros-parameter layout. -/
structure ConfigEntry where
  name : String
  type : String
deriving DecidableEq, Repr

/-- Failures surfaced by loading: malformed/missing configuration, or a type
identifier the registry cannot resolve. -/
inductive LoadError where
  | configError (msg : String)
  | pluginResolutionError (typeId reason : String)
deriving DecidableEq, Repr

/-- The capability registry contract: resolve a string type identifier into a
newly constructed owned instance, or fail with a reason. -/
def CapabilityRegistry (Inst : Type) : Type := String → Except String Inst

/-- `ManagerInterface<_Plugin>`: owns the loaded plugins and stores them as an
ordered `vector` of `(name, instance)` pairs (`plugins_`). -/
structure ManagerInterface (Inst : Type) where
  plugins_ : List (String × Inst)

/-- `ManagerInterface::getPlugins` — embedded from the inline source body
`return plugins_;`.  A `const noexcept` accessor, rendered in explicit
state-passing style: it returns the read-only view of the currently loaded
ordered plugin list together with the (unchanged) manager state. -/
def ManagerInterface.getPlugins {Inst : Type} (m : ManagerInterface Inst) :
    List (String × Inst) × ManagerInterface Inst :=
  (m.plugins_, m)

/-- Modelled from the spec (`ArrayPluginManager::load` is implemented in a
`.cpp` file not under `src/`): resolve every entry of a configuration array
in declared order, building the new ordered `(name, instance)` list; the
first registry failure aborts with `PluginResolutionError{type, reason}`. -/
def resolveEntries {Inst : Type} (registry : CapabilityRegistry Inst) :
    List ConfigEntry → Except LoadError (List (String × Inst))
  | [] => .ok []
  | e :: rest =>
    match registry e.type with
    | .error reason => .error (.pluginResolutionError e.type reason)
    | .ok inst =>
      match resolveEntries registry rest with
      | .error err => .error err
      | .ok tail => .ok ((e.name, inst) :: tail)

/-- Modelled from the spec (`ArrayPluginManager::load` is implemented in a
`.cpp` file not under `src/`): load an array of plugins.  `none` stands for
an absent / non-array resource and yields a `ConfigError`.  Otherwise a
brand-new list is built by `resolveEntries` and, only if every entry
resolved, atomically swapped in for the previous list; on any failure the
previous list is left untouched and the error is raised to the caller. -/
def ArrayPluginManager.load {Inst : Type} (m : ManagerInterface Inst)
    (registry : CapabilityRegistry Inst) (cfg : Option (List ConfigEntry)) :
    ManagerInterface Inst × Option LoadError :=
  match cfg with
  | none => (m, some (.configError "resource is not an array"))
  | some entries =>
    match resolveEntries registry entries with
    | .error err => (m, some err)
    | .ok ps => (⟨ps⟩, none)

/-- Outcome kinds of the unified planning `Result`. -/
inductive Outcome where
  | success
  | preplanningFailed
  | planningFailed
  | postplanningFailed
  | cancelled
  | configInvalid
deriving DecidableEq, Repr

/-- `true` exactly on `Outcome.success`; the boolean legacy projection. -/
def Outcome.isSuccess : Outcome → Bool
  | .success => true
  | _ => false

/-- Modelled from the spec: the extended `makePlan` shape reports "a numeric
status code distinguishing outcome kinds"; an injective numbering of the
outcome kinds. -/
def Outcome.statusCode : Outcome → Nat
  | .success => 0
  | .preplanningFailed => 1
  | .planningFailed => 2
  | .postplanningFailed => 3
  | .cancelled => 4
  | .configInvalid => 5

/-- The canonical unified planning result: outcome kind, path, cost,
human-readable message and the contributing stage/instance name. -/
structure PlanResult (P C : Type) where
  outcome : Outcome
  path : List P := []
  cost : Option C := none
  message : String := ""
  contributor : String := ""
deriving DecidableEq, Repr

/-- Modelled from the spec: `PlanningFailed` "aggregating each instance's
{name, message}" — rendered as a single diagnostic string. -/
def aggregateMessage (failures : List (String × String)) : String :=
  String.intercalate "; " (failures.map fun f => f.1 ++ ": " ++ f.2)

/-- The `(name, message)` failure pairs the planning stage collects: each
core instance that fails on `(s, g)` contributes its name and message. -/
def coreFailures {P C : Type} (ps : List (String × BaseGlobalPlanner P C))
    (s g : P) : List (String × String) :=
  ps.filterMap fun p =>
    match p.2.makePlan s g with
    | .error msg => some (p.1, msg)
    | .ok _ => none

/-- Result of the pre-planning stage. -/
inductive PreOutcome (P T : Type) where
  | cancelled
  | failed (name msg : String)
  | ok (start goal : P) (tol : T)

/-- Result of the planning (core) stage. -/
inductive CoreOutcome (P C : Type) where
  | cancelled
  | success (name : String) (path : List P) (cost : C)
  | allFailed (failures : List (String × String))

/-- Result of the post-planning stage. -/
inductive PostOutcome (P C : Type) where
  | cancelled
  | failed (name msg : String)
  | ok (path : List P) (cost : C)

/-- Modelled from the spec (`GlobalPlannerPipeline::prePlanning` is
implemented in a `.cpp` file not under `src/`): the pre-planning stage.  For
each named instance in order: check the cancellation flag (observation `k` of
the oracle), call `transform`, abort on failure with that instance's name and
message; mutations to start/goal/tolerance made by one instance are passed to
the next.  Returns the invocation trace, the next checkpoint index and the
stage outcome. -/
def prePlanning {P T : Type} (cancelO : Nat → Bool) :
    List (String × PrePlanningInterface P T) → Nat → P → P → T →
    List Event × Nat × PreOutcome P T
  | [], k, s, g, t => ([], k, .ok s g t)
  | (n, inst) :: rest, k, s, g, t =>
    if cancelO k then ([], k + 1, .cancelled)
    else
      match inst.transform s g t with
      | .error msg => ([⟨.pre, n⟩], k + 1, .failed n msg)
      | .ok (s', g', t') =>
        match prePlanning cancelO rest (k + 1) s' g' t' with
        | (tr, k', out) => (⟨.pre, n⟩ :: tr, k', out)

/-- Modelled from the spec (`GlobalPlannerPipeline::globalPlanning` is
implemented in a `.cpp` file not under `src/`): the planning stage.  For each
named instance in order: check the cancellation flag, call `plan(start,
goal)`; the first success wins (its path and cost are adopted and no later
instance is consulted); if every instance fails, the `(name, message)` pairs
are aggregated. -/
def globalPlanning {P C : Type} (cancelO : Nat → Bool) :
    List (String × BaseGlobalPlanner P C) → Nat → P → P →
    List Event × Nat × CoreOutcome P C
  | [], k, _, _ => ([], k, .allFailed [])
  | (n, inst) :: rest, k, s, g =>
    if cancelO k then ([], k + 1, .cancelled)
    else
      match inst.makePlan s g with
      | .ok (path, cost) => ([⟨.core, n⟩], k + 1, .success n path cost)
      | .error msg =>
        match globalPlanning cancelO rest (k + 1) s g with
        | (tr, k', .cancelled) => (⟨.core, n⟩ :: tr, k', .cancelled)
        | (tr, k', .success m path cost) =>
          (⟨.core, n⟩ :: tr, k', .success m path cost)
        | (tr, k', .allFailed fs) =>
          (⟨.core, n⟩ :: tr, k', .allFailed ((n, msg) :: fs))

/-- Modelled from the spec (`GlobalPlannerPipeline::postPlanning` is
implemented in a `.cpp` file not under `src/`): the post-planning stage.  For
each named instance in order: check the cancellation flag, call
`refine(path, cost)`, abort on failure with that instance's name and message;
the refined path and cost are passed to the next instance. -/
def postPlanning {P C : Type} (cancelO : Nat → Bool) :
    List (String × PostPlanningInterface P C) → Nat → List P → C →
    List Event × Nat × PostOutcome P C
  | [], k, path, cost => ([], k, .ok path cost)
  | (n, inst) :: rest, k, path, cost =>
    if cancelO k then ([], k + 1, .cancelled)
    else
      match inst.refine path cost with
      | .error msg => ([⟨.post, n⟩], k + 1, .failed n msg)
      | .ok (path', cost') =>
        match postPlanning cancelO rest (k + 1) path' cost' with
        | (tr, k', out) => (⟨.post, n⟩ :: tr, k', out)

/-- `GlobalPlannerPipeline`: combines pre-planning, planning and
post-planning.  Members mirror the source (`tolerance_`, `cancel_`,
`name_`, and the three `ArrayPluginManager`s); `initialized` records the
spec's `Uninitialized → Initialized` orchestrator state; the borrowed
costmap pointer is outside this core and omitted.  `cancel_` holds the value
of the atomic cancellation flag as observed when `plan` is entered. -/
structure GlobalPlannerPipeline (P C T : Type) where
  tolerance_ : T
  cancel_ : Bool := false
  name_ : String := ""
  initialized : Bool := false
  pre_planning_ : ManagerInterface (PrePlanningInterface P T)
  post_planning_ : ManagerInterface (PostPlanningInterface P C)
  global_planning_ : ManagerInterface (BaseGlobalPlanner P C)

/-- The external configuration: an optional tolerance and the three
`{name, type}` arrays (`none` = absent / non-array resource). -/
structure PipelineConfig (T : Type) where
  tolerance : Option T := none
  pre_planning : Option (List ConfigEntry) := none
  planning : Option (List ConfigEntry) := none
  post_planning : Option (List ConfigEntry) := none

/-- Modelled from the spec (`GlobalPlannerPipeline::cancel` is implemented in
a `.cpp` file not under `src/`): sets the cancellation channel to
"requested"; never errors.  (Its racy best-effort "was a plan in flight"
report is a cross-thread observation outside this single-threaded
embedding.) -/
def GlobalPlannerPipeline.cancel {P C T : Type}
    (pp : GlobalPlannerPipeline P C T) : GlobalPlannerPipeline P C T :=
  { pp with cancel_ := true }

/-- Modelled from the spec (`GlobalPlannerPipeline::initialize` is
implemented in a `.cpp` file not under `src/`): validate the tolerance
(external default if absent); load the pre-planning array (optional, absent
treated as empty); load the core-planning array, failing with `ConfigError`
if missing or empty; load the post-planning array (optional); on full
success reset the cancellation channel and become `Initialized`.  The first
failure of a step aborts; steps already completed retain their new instance
lists, and the orchestrator keeps its prior `initialized` state. -/
def GlobalPlannerPipeline.initializePipeline {P C T : Type}
    (pp : GlobalPlannerPipeline P C T) (defaultTolerance : T)
    (preReg : CapabilityRegistry (PrePlanningInterface P T))
    (coreReg : CapabilityRegistry (BaseGlobalPlanner P C))
    (postReg : CapabilityRegistry (PostPlanningInterface P C))
    (cfg : PipelineConfig T) :
    GlobalPlannerPipeline P C T × Option LoadError :=
  let tol := cfg.tolerance.getD defaultTolerance
  let pp1 := { pp with tolerance_ := tol }
  match ArrayPluginManager.load pp1.pre_planning_ preReg
      (some (cfg.pre_planning.getD [])) with
  | (_, some err) => (pp1, some err)
  | (preM, none) =>
    let pp2 := { pp1 with pre_planning_ := preM }
    match cfg.planning with
    | none =>
      (pp2, some (.configError "at least one planning implementation required"))
    | some entries =>
      if entries.isEmpty then
        (pp2,
         some (.configError "at least one planning implementation required"))
      else
        match ArrayPluginManager.load pp2.global_planning_ coreReg
            (some entries) with
        | (_, some err) => (pp2, some err)
        | (coreM, none) =>
          let pp3 := { pp2 with global_planning_ := coreM }
          match ArrayPluginManager.load pp3.post_planning_ postReg
              (some (cfg.post_planning.getD [])) with
          | (_, some err) => (pp3, some err)
          | (postM, none) =>
            ({ pp3 with
                post_planning_ := postM
                cancel_ := false
                initialized := true }, none)

/-- Modelled from the spec (the `makePlan` bodies are implemented in a
`.cpp` file not under `src/`): the canonical `plan(start, goal, tolerance)`
algorithm, independent of the caller-facing call shape.  If the cancellation
channel is set on entry, return `Cancelled` immediately, invoking no
instance; otherwise run the pre-planning, planning and post-planning stages
in sequence with fail-fast semantics, threading the checkpoint index through
the stages.  Returns the unified `PlanResult` together with the full
instance-invocation trace. -/
def GlobalPlannerPipeline.plan {P C T : Type}
    (pp : GlobalPlannerPipeline P C T) (cancelO : Nat → Bool)
    (s g : P) (tol : T) : PlanResult P C × List Event :=
  if pp.cancel_ then ({ outcome := .cancelled }, [])
  else
    match prePlanning cancelO pp.pre_planning_.plugins_ 0 s g tol with
    | (tr1, _, .cancelled) => ({ outcome := .cancelled }, tr1)
    | (tr1, _, .failed n msg) =>
      ({ outcome := .preplanningFailed, message := msg, contributor := n },
       tr1)
    | (tr1, k1, .ok s' g' _) =>
      match globalPlanning cancelO pp.global_planning_.plugins_ k1 s' g' with
      | (tr2, _, .cancelled) => ({ outcome := .cancelled }, tr1 ++ tr2)
      | (tr2, _, .allFailed fs) =>
        ({ outcome := .planningFailed, message := aggregateMessage fs },
         tr1 ++ tr2)
      | (tr2, k2, .success n path cost) =>
        match postPlanning cancelO pp.post_planning_.plugins_ k2 path cost with
        | (tr3, _, .cancelled) =>
          ({ outcome := .cancelled }, tr1 ++ tr2 ++ tr3)
        | (tr3, _, .failed pn msg) =>
          ({ outcome := .postplanningFailed, message := msg,
             contributor := pn }, tr1 ++ tr2 ++ tr3)
        | (tr3, _, .ok path' cost') =>
          ({ outcome := .success, path := path', cost := some cost',
             contributor := n }, tr1 ++ tr2 ++ tr3)

/-- Modelled from the spec: the boolean legacy `makePlan(start, goal, plan)`
shape — a projection of the canonical result: `ok = outcome == Success`,
plus the path. -/
def GlobalPlannerPipeline.makePlanBool {P C T : Type}
    (pp : GlobalPlannerPipeline P C T) (cancelO : Nat → Bool) (s g : P) :
    Bool × List P :=
  let r := (pp.plan cancelO s g pp.tolerance_).1
  (r.outcome.isSuccess, r.path)

/-- Modelled from the spec: the boolean-plus-cost legacy
`makePlan(start, goal, plan, cost)` shape — the same projection also carrying
the cost. -/
def GlobalPlannerPipeline.makePlanCost {P C T : Type}
    (pp : GlobalPlannerPipeline P C T) (cancelO : Nat → Bool) (s g : P) :
    Bool × List P × Option C :=
  let r := (pp.plan cancelO s g pp.tolerance_).1
  (r.outcome.isSuccess, r.path, r.cost)

/-- Modelled from the spec: the extended
`makePlan(start, goal, tolerance, plan, cost, message)` shape — a numeric
status code distinguishing outcome kinds, the message, the path and the
cost, all derived from the same single canonical result. -/
def GlobalPlannerPipeline.makePlanFull {P C T : Type}
    (pp : GlobalPlannerPipeline P C T) (cancelO : Nat → Bool) (s g : P)
    (tol : T) : Nat × String × List P × Option C :=
  let r := (pp.plan cancelO s g tol).1
  (r.outcome.statusCode, r.message, r.path, r.cost)

/-! ### Concrete fixtures

Instrumented concrete capability instances and pipelines over `P = C = T =
Nat`, used to evaluate the pipeline on explicit inputs (the spec's
"instrumented fakes"). -/

/-- A pre-planning fake that shifts start, goal and tolerance by one. -/
def preShift : PrePlanningInterface Nat Nat :=
  ⟨fun s g t => .ok (s + 1, g + 1, t + 1)⟩

/-- A pre-planning fake that always rejects. -/
def preReject : PrePlanningInterface Nat Nat :=
  ⟨fun _ _ _ => .error "pre rejected"⟩

/-- A planning fake that always fails. -/
def planNoPath : BaseGlobalPlanner Nat Nat :=
  ⟨fun _ _ => .error "no path"⟩

/-- A second planning fake that always fails, with a different message. -/
def planBlocked : BaseGlobalPlanner Nat Nat :=
  ⟨fun _ _ => .error "blocked"⟩

/-- A planning fake that succeeds with a three-pose path of cost 42. -/
def planThree : BaseGlobalPlanner Nat Nat :=
  ⟨fun s g => .ok ([s, s + g, g], 42)⟩

/-- A post-planning fake that appends a pose and bumps the cost. -/
def postAppend : PostPlanningInterface Nat Nat :=
  ⟨fun p c => .ok (p ++ [0], c + 1)⟩

/-- A post-planning fake that always vetoes. -/
def postVeto : PostPlanningInterface Nat Nat :=
  ⟨fun _ _ => .error "post veto"⟩

/-- A cancellation oracle that never observes the flag set. -/
def noCancel : Nat → Bool := fun _ => false

/-- A registry for the fixture planners. -/
def coreRegFix : CapabilityRegistry (BaseGlobalPlanner Nat Nat) :=
  fun ty =>
    if ty = "planThree" then .ok planThree
    else if ty = "planNoPath" then .ok planNoPath
    else .error "unknown plugin"

/-- A registry for the fixture pre-planners. -/
def preRegFix : CapabilityRegistry (PrePlanningInterface Nat Nat) :=
  fun ty => if ty = "preShift" then .ok preShift else .error "unknown plugin"

/-- A registry for the fixture post-planners. -/
def postRegFix : CapabilityRegistry (PostPlanningInterface Nat Nat) :=
  fun ty => if ty = "postAppend" then .ok postAppend
            else .error "unknown plugin"

/-- A fixture pipeline: one rejecting pre-planner, one working planner, one
working post-planner. -/
def ppPreReject : GlobalPlannerPipeline Nat Nat Nat where
  tolerance_ := 3
  pre_planning_ := ⟨[("p", preReject)]⟩
  global_planning_ := ⟨[("a", planThree)]⟩
  post_planning_ := ⟨[("q", postAppend)]⟩

/-- A fixture pipeline whose core planners all fail. -/
def ppAllFail : GlobalPlannerPipeline Nat Nat Nat where
  tolerance_ := 3
  pre_planning_ := ⟨[]⟩
  global_planning_ := ⟨[("f1", planNoPath), ("f2", planBlocked)]⟩
  post_planning_ := ⟨[("q", postAppend)]⟩

/-- A fixture pipeline whose post-planner vetoes a successful plan. -/
def ppVeto : GlobalPlannerPipeline Nat Nat Nat where
  tolerance_ := 3
  pre_planning_ := ⟨[("r", preShift)]⟩
  global_planning_ := ⟨[("b", planThree)]⟩
  post_planning_ := ⟨[("v", postVeto)]⟩

/-- A fixture pipeline with empty loaders and an unset state. -/
def ppFresh : GlobalPlannerPipeline Nat Nat Nat where
  tolerance_ := 0
  pre_planning_ := ⟨[]⟩
  global_planning_ := ⟨[]⟩
  post_planning_ := ⟨[]⟩

/-- A configuration with an unresolvable pre-planning entry and an empty
core-planning array. -/
def cfgBadPre : PipelineConfig Nat where
  pre_planning := some [⟨"p", "ghost"⟩]
  planning := some []

/-- A pre-planning registry that resolves nothing. -/
def preRegNone : CapabilityRegistry (PrePlanningInterface Nat Nat) :=
  fun _ => .error "unknown plugin"

/-- A configuration whose core-planning array is present but empty (and
whose other roles are absent). -/
def cfgEmptyCore : PipelineConfig Nat where
  planning := some []

/-! ### Helper lemmas -/

/-- Every event recorded by the pre-planning stage belongs to `Stage.pre`. -/
theorem prePlanning_stage_eq {P T : Type} (cancelO : Nat → Bool)
    (ps : List (String × PrePlanningInterface P T)) :
    ∀ (k : Nat) (s g : P) (t : T) (e : Event),
      e ∈ (prePlanning cancelO ps k s g t).1 → e.stage = Stage.pre := by
  induction ps with
  | nil => intro k s g t e he; simp [prePlanning] at he
  | cons p rest ih =>
    intro k s g t e he
    obtain ⟨n, inst⟩ := p
    by_cases hc : cancelO k = true
    · simp [prePlanning, hc] at he
    · cases hp : inst.transform s g t with
      | error msg =>
        simp [prePlanning, hc, hp] at he
        subst he; rfl
      | ok v =>
        obtain ⟨s', g', t'⟩ := v
        rcases hrec : prePlanning cancelO rest (k + 1) s' g' t' with ⟨tr, rest'⟩
        simp [prePlanning, hc, hp, hrec] at he
        rcases he with he | he
        · subst he; rfl
        · exact ih (k + 1) s' g' t' e (by rw [hrec]; exact he)

/-- Every event recorded by the planning stage belongs to `Stage.core`. -/
theorem globalPlanning_stage_eq {P C : Type} (cancelO : Nat → Bool)
    (ps : List (String × BaseGlobalPlanner P C)) :
    ∀ (k : Nat) (s g : P) (e : Event),
      e ∈ (globalPlanning cancelO ps k s g).1 → e.stage = Stage.core := by
  induction ps with
  | nil => intro k s g e he; simp [globalPlanning] at he
  | cons p rest ih =>
    intro k s g e he
    obtain ⟨n, inst⟩ := p
    by_cases hc : cancelO k = true
    · simp [globalPlanning, hc] at he
    · cases hp : inst.makePlan s g with
      | ok pc =>
        obtain ⟨path, cost⟩ := pc
        simp [globalPlanning, hc, hp] at he
        subst he; rfl
      | error msg =>
        rcases hrec : globalPlanning cancelO rest (k + 1) s g
          with ⟨tr, k', out⟩
        cases out with
        | cancelled =>
          simp [globalPlanning, hc, hp, hrec] at he
          rcases he with he | he
          · subst he; rfl
          · exact ih (k + 1) s g e (by rw [hrec]; exact he)
        | success m path cost =>
          simp [globalPlanning, hc, hp, hrec] at he
          rcases he with he | he
          · subst he; rfl
          · exact ih (k + 1) s g e (by rw [hrec]; exact he)
        | allFailed fs =>
          simp [globalPlanning, hc, hp, hrec] at he
          rcases he with he | he
          · subst he; rfl
          · exact ih (k + 1) s g e (by rw [hrec]; exact he)

/-- If every planner in the list fails, the planning stage records exactly
one `core` event per instance, consumes one checkpoint per instance, and
collects every instance's `(name, message)` failure pair. -/
theorem globalPlanning_allFailed {P C : Type} (cancelO : Nat → Bool)
    (hnc : ∀ j, cancelO j = false) (s g : P) :
    ∀ (ps : List (String × BaseGlobalPlanner P C)) (k : Nat),
      (∀ p ∈ ps, ∃ msg, p.2.makePlan s g = Except.error msg) →
      globalPlanning cancelO ps k s g
        = (ps.map fun p => ⟨Stage.core, p.1⟩, k + ps.length,
           CoreOutcome.allFailed (coreFailures ps s g)) := by
  intro ps
  induction ps with
  | nil => intro k _; simp [globalPlanning, coreFailures]
  | cons p rest ih =>
    intro k hall
    obtain ⟨n, inst⟩ := p
    obtain ⟨msg, hmsg⟩ := hall (n, inst) (List.mem_cons_self _ _)
    have hmsg' : inst.makePlan s g = Except.error msg := hmsg
    have hrest := ih (k + 1) (fun q hq => hall q (List.mem_cons_of_mem _ hq))
    simp only [globalPlanning, hnc k, Bool.false_eq_true, if_false, hmsg',
      hrest, coreFailures, List.filterMap_cons, List.map_cons,
      List.length_cons, Prod.mk.injEq]
    refine ⟨trivial, by omega, trivial⟩

/-- First success wins: if every planner in `as` fails on `(s, g)` and `i`
succeeds with `(path, cost)`, the planning stage over `as ++ (n, i) :: bs`
consults exactly the planners of `as` and then `i`, adopting `i`'s path and
cost and never consulting `bs`. -/
theorem globalPlanning_first_success {P C : Type} (cancelO : Nat → Bool)
    (hnc : ∀ j, cancelO j = false) (s g : P) (n : String)
    (i : BaseGlobalPlanner P C) (path : List P) (cost : C)
    (hi : i.makePlan s g = Except.ok (path, cost)) :
    ∀ (as : List (String × BaseGlobalPlanner P C))
      (bs : List (String × BaseGlobalPlanner P C)) (k : Nat),
      (∀ p ∈ as, ∃ msg, p.2.makePlan s g = Except.error msg) →
      globalPlanning cancelO (as ++ (n, i) :: bs) k s g
        = ((as.map fun p => ⟨Stage.core, p.1⟩) ++ [⟨Stage.core, n⟩],
           k + as.length + 1, CoreOutcome.success n path cost) := by
  intro as
  induction as with
  | nil => intro bs k _; simp [globalPlanning, hnc k, hi]
  | cons a rest ih =>
    intro bs k hall
    obtain ⟨m, j⟩ := a
    obtain ⟨msg, hmsg⟩ := hall (m, j) (List.mem_cons_self _ _)
    have hmsg' : j.makePlan s g = Except.error msg := hmsg
    have hrest := ih bs (k + 1) (fun q hq => hall q (List.mem_cons_of_mem _ hq))
    simp only [List.cons_append, globalPlanning, hnc k, Bool.false_eq_true,
      if_false, hmsg', hrest, List.map_cons, List.length_cons,
      List.append_eq, Prod.mk.injEq]
    refine ⟨trivial, by omega, trivial⟩

/-! ### Claim theorems -/

/-- Claim C10: `getPlugins` never fails (it is a `noexcept` `const`
accessor): for every manager state it returns a read-only view of the
currently loaded ordered plugin list and leaves the manager's state,
including the list itself, unchanged.  In the state-passing embedding the
accessor is a total function whose returned state is exactly the input
state and whose returned view is exactly the stored ordered list. -/
theorem getPlugins_total_pure {Inst : Type} (m : ManagerInterface Inst) :
    (m.getPlugins).1 = m.plugins_ ∧ (m.getPlugins).2 = m :=
  ⟨rfl, rfl⟩

/-- Claim C6: for every loader, calling `load` twice leaves
`getPlugins` reflecting exactly the second array: whenever the second
array's entries resolve to the list `ps2`, the plugin list after the two
loads is `ps2`, regardless of what the first load did — each `load` fully
replaces the previous instance list, never merging or accumulating entries
across reloads. -/
theorem load_twice_replaces {Inst : Type} (m : ManagerInterface Inst)
    (reg1 reg2 : CapabilityRegistry Inst) (cfg1 : Option (List ConfigEntry))
    (entries2 : List ConfigEntry) (ps2 : List (String × Inst))
    (h2 : resolveEntries reg2 entries2 = Except.ok ps2) :
    (((ArrayPluginManager.load (ArrayPluginManager.load m reg1 cfg1).1 reg2
        (some entries2)).1).getPlugins).1 = ps2 := by
  simp [ArrayPluginManager.load, h2, ManagerInterface.getPlugins]

/-- Witness for C6: loading `[planNoPath]` and then `[planThree]` leaves the
loader holding exactly the resolution of the second array. -/
theorem load_twice_replaces_witness :
    ((((ArrayPluginManager.load (⟨[("old", planBlocked)]⟩ :
          ManagerInterface (BaseGlobalPlanner Nat Nat)) coreRegFix
          (some [⟨"a", "planNoPath"⟩])).1).getPlugins).1 = [("a", planNoPath)])
    ∧ (((ArrayPluginManager.load
          (ArrayPluginManager.load (⟨[("old", planBlocked)]⟩ :
            ManagerInterface (BaseGlobalPlanner Nat Nat)) coreRegFix
            (some [⟨"a", "planNoPath"⟩])).1 coreRegFix
          (some [⟨"b", "planThree"⟩])).1).getPlugins).1 = [("b", planThree)] :=
  ⟨rfl,
    load_twice_replaces ⟨[("old", planBlocked)]⟩ coreRegFix coreRegFix
      (some [⟨"a", "planNoPath"⟩]) [⟨"b", "planThree"⟩] [("b", planThree)] rfl⟩

/-- Resolution fails at the first entry whose type the registry cannot
resolve, with every earlier partial result discarded. -/
theorem resolveEntries_error_mid {Inst : Type}
    (reg : CapabilityRegistry Inst) (e : ConfigEntry)
    (bs : List ConfigEntry) (reason : String)
    (he : reg e.type = Except.error reason) :
    ∀ as : List ConfigEntry,
      (∀ a ∈ as, ∃ i, reg a.type = Except.ok i) →
      resolveEntries reg (as ++ e :: bs)
        = Except.error (.pluginResolutionError e.type reason) := by
  intro as
  induction as with
  | nil => intro _; simp [resolveEntries, he]
  | cons a rest ih =>
    intro hok
    obtain ⟨i, hi⟩ := hok a (List.mem_cons_self _ _)
    have hrest := ih (fun q hq => hok q (List.mem_cons_of_mem _ hq))
    simp [resolveEntries, hi, hrest]

/-- Claim C7: a single `load` call is all-or-nothing: if resolving an entry
of the configuration array fails mid-array (every earlier entry resolved,
this one does not), the partially built new list is discarded, the loader's
previous instance list is left untouched, and the resolution failure is
raised to the caller. -/
theorem load_all_or_nothing {Inst : Type} (m : ManagerInterface Inst)
    (reg : CapabilityRegistry Inst) (as : List ConfigEntry) (e : ConfigEntry)
    (bs : List ConfigEntry) (reason : String)
    (hok : ∀ a ∈ as, ∃ i, reg a.type = Except.ok i)
    (he : reg e.type = Except.error reason) :
    ArrayPluginManager.load m reg (some (as ++ e :: bs))
      = (m, some (.pluginResolutionError e.type reason)) := by
  simp [ArrayPluginManager.load, resolveEntries_error_mid reg e bs reason he as hok]

/-- Witness for C7: a loader holding one old plugin, fed an array whose
first entry resolves and whose second does not, keeps its old list and
reports the resolution failure. -/
theorem load_all_or_nothing_witness :
    ArrayPluginManager.load (⟨[("old", planBlocked)]⟩ :
        ManagerInterface (BaseGlobalPlanner Nat Nat)) coreRegFix
      (some ([⟨"a", "planThree"⟩] ++ ⟨"b", "ghost"⟩ :: []))
      = (⟨[("old", planBlocked)]⟩, some (.pluginResolutionError "ghost" "unknown plugin")) :=
  load_all_or_nothing ⟨[("old", planBlocked)]⟩ coreRegFix
    [⟨"a", "planThree"⟩] ⟨"b", "ghost"⟩ [] "unknown plugin"
    (by
      intro a ha
      rw [List.mem_singleton] at ha
      subst ha
      exact ⟨planThree, rfl⟩)
    rfl

/-- Claim C5: if the cancellation channel is set when `plan` starts
(`cancel()` was called and not since reset by `initialize`), `plan` returns
`Cancelled` immediately and the invocation trace is empty — zero capability
instances are invoked in that call.  Moreover `cancel()` does set the
channel. -/
theorem plan_cancelled_before_start {P C T : Type}
    (pp : GlobalPlannerPipeline P C T) (cancelO : Nat → Bool) (s g : P)
    (t : T) (h : pp.cancel_ = true) :
    pp.plan cancelO s g t = ({ outcome := .cancelled }, [])
    ∧ (GlobalPlannerPipeline.cancel pp).cancel_ = true := by
  constructor
  · simp [GlobalPlannerPipeline.plan, h]
  · rfl

/-- Witness for C5: the fixture pipeline with its channel set returns
`Cancelled` with an empty trace. -/
theorem plan_cancelled_before_start_witness :
    ({ ppVeto with cancel_ := true }).plan noCancel 1 2 3
        = ({ outcome := .cancelled }, [])
    ∧ (GlobalPlannerPipeline.cancel { ppVeto with cancel_ := true }).cancel_
        = true :=
  plan_cancelled_before_start { ppVeto with cancel_ := true } noCancel 1 2 3 rfl

/-- Claim C2: if a pre-planning instance signals failure during `plan`, the
pipeline aborts with `PreplanningFailed` carrying that instance's name and
message, and no core-planning or post-planning instance is invoked in that
`plan` call: the whole invocation trace consists of pre-planning events
only. -/
theorem preplanning_failure_aborts {P C T : Type}
    (pp : GlobalPlannerPipeline P C T) (cancelO : Nat → Bool) (s g : P)
    (t : T) (tr : List Event) (k : Nat) (n msg : String)
    (hcf : pp.cancel_ = false)
    (hPre : prePlanning cancelO pp.pre_planning_.plugins_ 0 s g t
      = (tr, k, .failed n msg)) :
    pp.plan cancelO s g t
      = ({ outcome := .preplanningFailed, message := msg, contributor := n },
         tr)
    ∧ ∀ e ∈ tr, e.stage = Stage.pre := by
  constructor
  · simp [GlobalPlannerPipeline.plan, hcf, hPre]
  · intro e he
    have hst := prePlanning_stage_eq cancelO pp.pre_planning_.plugins_ 0 s g t e
    rw [hPre] at hst
    exact hst he

/-- Witness for C2: the fixture pipeline whose pre-planner rejects returns
`PreplanningFailed{"p", "pre rejected"}` having invoked only that
pre-planner. -/
theorem preplanning_failure_aborts_witness :
    ppPreReject.plan noCancel 1 2 3
      = ({ outcome := .preplanningFailed, message := "pre rejected",
           contributor := "p" }, [⟨Stage.pre, "p"⟩])
    ∧ ∀ e ∈ [(⟨Stage.pre, "p"⟩ : Event)], e.stage = Stage.pre :=
  preplanning_failure_aborts ppPreReject noCancel 1 2 3
    [⟨Stage.pre, "p"⟩] 1 "p" "pre rejected" rfl rfl

/-- Claim C3: if a post-planning instance signals failure after the planning
stage produced a successful path with its cost, the overall `plan` result is
`PostplanningFailed` — not `Success` — even though a valid path and cost
were computed: the post-planning veto invalidates the otherwise-successful
result. -/
theorem postplanning_veto {P C T : Type}
    (pp : GlobalPlannerPipeline P C T) (cancelO : Nat → Bool) (s g : P)
    (t : T) (tr1 : List Event) (k1 : Nat) (s' g' : P) (t' : T)
    (tr2 : List Event) (k2 : Nat) (n : String) (path : List P) (cost : C)
    (tr3 : List Event) (k3 : Nat) (pn msg : String)
    (hcf : pp.cancel_ = false)
    (hPre : prePlanning cancelO pp.pre_planning_.plugins_ 0 s g t
      = (tr1, k1, .ok s' g' t'))
    (hCore : globalPlanning cancelO pp.global_planning_.plugins_ k1 s' g'
      = (tr2, k2, .success n path cost))
    (hPost : postPlanning cancelO pp.post_planning_.plugins_ k2 path cost
      = (tr3, k3, .failed pn msg)) :
    pp.plan cancelO s g t
      = ({ outcome := .postplanningFailed, message := msg,
           contributor := pn }, tr1 ++ tr2 ++ tr3)
    ∧ (pp.plan cancelO s g t).1.outcome ≠ Outcome.success := by
  have heq : pp.plan cancelO s g t
      = ({ outcome := .postplanningFailed, message := msg,
           contributor := pn }, tr1 ++ tr2 ++ tr3) := by
    simp [GlobalPlannerPipeline.plan, hcf, hPre, hCore, hPost]
  refine ⟨heq, ?_⟩
  rw [heq]
  simp

/-- Witness for C3: the fixture pipeline whose post-planner vetoes returns
`PostplanningFailed{"v", "post veto"}` although its planner had produced the
three-pose path `[2, 5, 3]` of cost `42`. -/
theorem postplanning_veto_witness :
    ppVeto.plan noCancel 1 2 3
      = ({ outcome := .postplanningFailed, message := "post veto",
           contributor := "v" },
         [⟨Stage.pre, "r"⟩] ++ [⟨Stage.core, "b"⟩] ++ [⟨Stage.post, "v"⟩])
    ∧ (ppVeto.plan noCancel 1 2 3).1.outcome ≠ Outcome.success :=
  postplanning_veto ppVeto noCancel 1 2 3
    [⟨Stage.pre, "r"⟩] 1 2 3 4
    [⟨Stage.core, "b"⟩] 2 "b" [2, 5, 3] 42
    [⟨Stage.post, "v"⟩] 3 "v" "post veto"
    rfl rfl rfl rfl

/-- Claim C8: during the pre-planning stage, the mutations one instance's
`transform(start, goal, tolerance)` makes to start, goal and tolerance are
exactly what the next instance in the list receives — the tolerance being an
in-out parameter of the transform contract just like start and goal: when
the first instance rewrites `(s, g, t)` to `(s', g', t')`, the second is
invoked on `(s', g', t')`, and the remainder of the stage continues from the
second instance's own outputs `(s'', g'', t'')`. -/
theorem preplanning_mutations_visible {P T : Type} (cancelO : Nat → Bool)
    (k : Nat) (n1 n2 : String) (i1 i2 : PrePlanningInterface P T)
    (rest : List (String × PrePlanningInterface P T)) (s g : P) (t : T)
    (s' g' : P) (t' : T) (s'' g'' : P) (t'' : T)
    (hc1 : cancelO k = false) (hc2 : cancelO (k + 1) = false)
    (h1 : i1.transform s g t = Except.ok (s', g', t'))
    (h2 : i2.transform s' g' t' = Except.ok (s'', g'', t'')) :
    prePlanning cancelO ((n1, i1) :: (n2, i2) :: rest) k s g t
      = (⟨Stage.pre, n1⟩ :: ⟨Stage.pre, n2⟩
          :: (prePlanning cancelO rest (k + 2) s'' g'' t'').1,
         (prePlanning cancelO rest (k + 2) s'' g'' t'').2) := by
  rcases hrec : prePlanning cancelO rest (k + 2) s'' g'' t'' with ⟨tr, rest'⟩
  have hk : k + 1 + 1 = k + 2 := rfl
  simp [prePlanning, hc1, hc2, h1, h2, hk, hrec]

/-- Witness for C8: two shifting pre-planners starting from `(1, 2, 3)` —
the second one observes `(2, 3, 4)` and the stage ends at `(3, 4, 5)`. -/
theorem preplanning_mutations_visible_witness :
    prePlanning noCancel [("r1", preShift), ("r2", preShift)] 0 1 2 3
      = (⟨Stage.pre, "r1"⟩ :: ⟨Stage.pre, "r2"⟩
          :: (prePlanning noCancel ([] :
                List (String × PrePlanningInterface Nat Nat)) 2 3 4 5).1,
         (prePlanning noCancel ([] :
                List (String × PrePlanningInterface Nat Nat)) 2 3 4 5).2) :=
  preplanning_mutations_visible noCancel 0 "r1" "r2" preShift preShift []
    1 2 3 2 3 4 3 4 5 rfl rfl rfl rfl

/-- Claim C1: in the planning stage, `plan` calls the core-planning
instances in declared order and adopts the path and cost of the first
instance that signals success, never consulting any later instance once one
succeeds (first part: the stage over `as ++ (n, i) :: bs`, with every
planner of `as` failing and `i` succeeding, invokes exactly the planners of
`as` followed by `i` and adopts `i`'s path and cost); and if every
core-planning instance fails, the overall result is `PlanningFailed`
aggregating each instance's `{name, message}`, and no post-planning
instance is invoked (second part: the invocation trace of such a `plan`
call contains no post-planning event). -/
theorem planning_first_success_wins :
    (∀ (P C : Type) (cancelO : Nat → Bool) (s g : P) (n : String)
       (i : BaseGlobalPlanner P C) (path : List P) (cost : C)
       (as bs : List (String × BaseGlobalPlanner P C)) (k : Nat),
       (∀ j, cancelO j = false) →
       i.makePlan s g = Except.ok (path, cost) →
       (∀ p ∈ as, ∃ msg, p.2.makePlan s g = Except.error msg) →
       globalPlanning cancelO (as ++ (n, i) :: bs) k s g
         = ((as.map fun p => ⟨Stage.core, p.1⟩) ++ [⟨Stage.core, n⟩],
            k + as.length + 1, CoreOutcome.success n path cost))
    ∧
    (∀ (P C T : Type) (pp : GlobalPlannerPipeline P C T)
       (cancelO : Nat → Bool) (s g : P) (t : T) (tr1 : List Event) (k1 : Nat)
       (s' g' : P) (t' : T),
       pp.cancel_ = false →
       (∀ j, cancelO j = false) →
       prePlanning cancelO pp.pre_planning_.plugins_ 0 s g t
         = (tr1, k1, .ok s' g' t') →
       (∀ p ∈ pp.global_planning_.plugins_,
         ∃ msg, p.2.makePlan s' g' = Except.error msg) →
       (pp.plan cancelO s g t).1.outcome = Outcome.planningFailed
       ∧ (pp.plan cancelO s g t).1.message
           = aggregateMessage (coreFailures pp.global_planning_.plugins_ s' g')
       ∧ ∀ e ∈ (pp.plan cancelO s g t).2, e.stage ≠ Stage.post) := by
  constructor
  · intro P C cancelO s g n i path cost as bs k hnc hi hfail
    exact globalPlanning_first_success cancelO hnc s g n i path cost hi as bs
      k hfail
  · intro P C T pp cancelO s g t tr1 k1 s' g' t' hcf hnc hPre hall
    have hcore := globalPlanning_allFailed cancelO hnc s' g'
      pp.global_planning_.plugins_ k1 hall
    have heq : pp.plan cancelO s g t
        = ({ outcome := .planningFailed,
             message := aggregateMessage
               (coreFailures pp.global_planning_.plugins_ s' g') },
           tr1 ++ pp.global_planning_.plugins_.map fun p =>
             ⟨Stage.core, p.1⟩) := by
      simp [GlobalPlannerPipeline.plan, hcf, hPre, hcore]
    refine ⟨by rw [heq], by rw [heq], ?_⟩
    intro e he
    rw [heq] at he
    rcases List.mem_append.mp he with h | h
    · have hst := prePlanning_stage_eq cancelO pp.pre_planning_.plugins_
        0 s g t e (by rw [hPre]; exact h)
      rw [hst]
      simp
    · obtain ⟨p, _, rfl⟩ := List.mem_map.mp h
      simp

/-- Witness for C1: planners `[("f1", fail), ("b", succeed), ("c", fail)]`
on `(1, 2)` consult `f1` then `b` only and adopt `b`'s three-pose path of
cost 42; and the all-failing fixture pipeline ends in `PlanningFailed`
aggregating both failures, with no post-planning event in its trace. -/
theorem planning_first_success_wins_witness :
    (globalPlanning noCancel
        [("f1", planNoPath), ("b", planThree), ("c", planBlocked)] 0 1 2
      = ([⟨Stage.core, "f1"⟩, ⟨Stage.core, "b"⟩], 2,
         CoreOutcome.success "b" [1, 3, 2] 42))
    ∧ ((ppAllFail.plan noCancel 1 2 3).1.outcome = Outcome.planningFailed
       ∧ (ppAllFail.plan noCancel 1 2 3).1.message
           = aggregateMessage
               (coreFailures ppAllFail.global_planning_.plugins_ 1 2)
       ∧ ∀ e ∈ (ppAllFail.plan noCancel 1 2 3).2, e.stage ≠ Stage.post) :=
  ⟨planning_first_success_wins.1 Nat Nat noCancel 1 2 "b" planThree [1, 3, 2]
      42 [("f1", planNoPath)] [("c", planBlocked)] 0 (fun _ => rfl) rfl
      (by
        intro p hp
        rw [List.mem_singleton] at hp
        subst hp
        exact ⟨"no path", rfl⟩),
   planning_first_success_wins.2 Nat Nat Nat ppAllFail noCancel 1 2 3 [] 0
      1 2 3 rfl (fun _ => rfl) rfl
      (by
        intro p hp
        have hp' : p ∈ [("f1", planNoPath), ("f2", planBlocked)] := hp
        rcases List.mem_cons.mp hp' with rfl | hp''
        · exact ⟨"no path", rfl⟩
        · rcases List.mem_cons.mp hp'' with rfl | hp'''
          · exact ⟨"blocked", rfl⟩
          · exact (List.not_mem_nil p hp''').elim)⟩

/-- Claim C4 (amended): for every configuration whose core-planning
(`planning`) array is absent or empty, `initialize` fails and the
orchestrator does not transition to the `Initialized` state (its
`initialized` flag is left exactly as it was); the failure is the
`ConfigError` "at least one planning implementation required" whenever
loading the pre-planning array succeeds (in particular whenever the
pre-planning array is absent, empty, or fully resolvable).  When the
pre-planning load itself fails, that earlier failure — possibly a
`PluginResolutionError` — is reported instead. -/
theorem initialize_empty_core_fails {P C T : Type}
    (pp : GlobalPlannerPipeline P C T) (dtol : T)
    (preReg : CapabilityRegistry (PrePlanningInterface P T))
    (coreReg : CapabilityRegistry (BaseGlobalPlanner P C))
    (postReg : CapabilityRegistry (PostPlanningInterface P C))
    (cfg : PipelineConfig T)
    (h : cfg.planning = none ∨ cfg.planning = some []) :
    ((pp.initializePipeline dtol preReg coreReg postReg cfg).2.isSome = true)
    ∧ ((pp.initializePipeline dtol preReg coreReg postReg cfg).1.initialized
        = pp.initialized)
    ∧ ((ArrayPluginManager.load pp.pre_planning_ preReg
          (some (cfg.pre_planning.getD []))).2 = none →
        (pp.initializePipeline dtol preReg coreReg postReg cfg).2
          = some (.configError
              "at least one planning implementation required")) := by
  rcases hl : ArrayPluginManager.load pp.pre_planning_ preReg
      (some (cfg.pre_planning.getD [])) with ⟨preM, e⟩
  cases e with
  | none =>
    rcases h with h | h
    · refine ⟨?_, ?_, fun _ => ?_⟩ <;>
        simp [GlobalPlannerPipeline.initializePipeline, h, hl]
    · refine ⟨?_, ?_, fun _ => ?_⟩ <;>
        simp [GlobalPlannerPipeline.initializePipeline, h, hl]
  | some err =>
    refine ⟨?_, ?_, fun hnone => ?_⟩
    · rcases h with h | h <;> simp [GlobalPlannerPipeline.initializePipeline, h, hl]
    · rcases h with h | h <;> simp [GlobalPlannerPipeline.initializePipeline, h, hl]
    · simp [hl] at hnone

/-- Counterexample to C4 as stated: a configuration whose core-planning
array is empty but whose pre-planning array names an unresolvable type.
`initialize` fails with `PluginResolutionError` — not `ConfigError` —
because the pre-planning load fails first (spec §4.3: first failure of
steps 2–4 wins). -/
theorem initialize_empty_core_cx :
    cfgBadPre.planning = some []
    ∧ (ppFresh.initializePipeline 0 preRegNone coreRegFix postRegFix cfgBadPre).2
        = some (.pluginResolutionError "ghost" "unknown plugin")
    ∧ ∀ msg,
        (ppFresh.initializePipeline 0 preRegNone coreRegFix postRegFix cfgBadPre).2
          ≠ some (.configError msg) := by
  refine ⟨rfl, rfl, ?_⟩
  intro msg h
  rw [show (ppFresh.initializePipeline 0 preRegNone coreRegFix postRegFix
      cfgBadPre).2 = some (.pluginResolutionError "ghost" "unknown plugin")
    from rfl] at h
  simp at h

/-- Witness for the amended C4: on a fresh (uninitialized) pipeline and a
configuration with an empty core-planning array and no pre-planning array,
`initialize` fails with the `ConfigError` and the pipeline stays
uninitialized. -/
theorem initialize_empty_core_fails_witness :
    ((ppFresh.initializePipeline 0 preRegFix coreRegFix postRegFix
        cfgEmptyCore).2.isSome = true)
    ∧ ((ppFresh.initializePipeline 0 preRegFix coreRegFix postRegFix
        cfgEmptyCore).1.initialized = ppFresh.initialized)
    ∧ ((ppFresh.initializePipeline 0 preRegFix coreRegFix postRegFix cfgEmptyCore).2
        = some (.configError
            "at least one planning implementation required")) := by
  have h := initialize_empty_core_fails ppFresh 0 preRegFix coreRegFix
    postRegFix cfgEmptyCore (Or.inr rfl)
  exact ⟨h.1, h.2.1, h.2.2 rfl⟩

/-- `isSuccess` is the characteristic function of the `Success` outcome. -/
theorem isSuccess_iff (o : Outcome) :
    o.isSuccess = true ↔ o = Outcome.success := by
  cases o <;> simp [Outcome.isSuccess]

/-- Claim C9: the three caller-facing `makePlan` shapes are projections of
one canonical `plan` result: for every input, the boolean legacy forms
return `true` if and only if the canonical outcome is `Success` and expose
that result's path (and cost), and the extended form's status code,
message, path and cost are all derived from that same single result — with
the status code distinguishing outcome kinds injectively — rather than from
re-running any stage. -/
theorem makePlan_shapes_project {P C T : Type}
    (pp : GlobalPlannerPipeline P C T) (cancelO : Nat → Bool) (s g : P)
    (tol : T) :
    ((pp.makePlanBool cancelO s g).1 = true
      ↔ (pp.plan cancelO s g pp.tolerance_).1.outcome = Outcome.success)
    ∧ (pp.makePlanBool cancelO s g).2
        = (pp.plan cancelO s g pp.tolerance_).1.path
    ∧ ((pp.makePlanCost cancelO s g).1 = true
      ↔ (pp.plan cancelO s g pp.tolerance_).1.outcome = Outcome.success)
    ∧ (pp.makePlanCost cancelO s g).2.1
        = (pp.plan cancelO s g pp.tolerance_).1.path
    ∧ (pp.makePlanCost cancelO s g).2.2
        = (pp.plan cancelO s g pp.tolerance_).1.cost
    ∧ pp.makePlanFull cancelO s g tol
        = ((pp.plan cancelO s g tol).1.outcome.statusCode,
           (pp.plan cancelO s g tol).1.message,
           (pp.plan cancelO s g tol).1.path,
           (pp.plan cancelO s g tol).1.cost)
    ∧ ∀ a b : Outcome, a.statusCode = b.statusCode → a = b := by
  refine ⟨isSuccess_iff _, rfl, isSuccess_iff _, rfl, rfl, rfl, ?_⟩
  intro a b
  cases a <;> cases b <;> simp [Outcome.statusCode]

/-- Witness for C9: the projection identities evaluated on the veto fixture
pipeline. -/
theorem makePlan_shapes_project_witness :
    ((ppVeto.makePlanBool noCancel 1 2).1 = true
      ↔ (ppVeto.plan noCancel 1 2 ppVeto.tolerance_).1.outcome
          = Outcome.success)
    ∧ (ppVeto.makePlanBool noCancel 1 2).2
        = (ppVeto.plan noCancel 1 2 ppVeto.tolerance_).1.path
    ∧ ((ppVeto.makePlanCost noCancel 1 2).1 = true
      ↔ (ppVeto.plan noCancel 1 2 ppVeto.tolerance_).1.outcome
          = Outcome.success)
    ∧ (ppVeto.makePlanCost noCancel 1 2).2.1
        = (ppVeto.plan noCancel 1 2 ppVeto.tolerance_).1.path
    ∧ (ppVeto.makePlanCost noCancel 1 2).2.2
        = (ppVeto.plan noCancel 1 2 ppVeto.tolerance_).1.cost
    ∧ ppVeto.makePlanFull noCancel 1 2 9
        = ((ppVeto.plan noCancel 1 2 9).1.outcome.statusCode,
           (ppVeto.plan noCancel 1 2 9).1.message,
           (ppVeto.plan noCancel 1 2 9).1.path,
           (ppVeto.plan noCancel 1 2 9).1.cost)
    ∧ ∀ a b : Outcome, a.statusCode = b.statusCode → a = b :=
  makePlan_shapes_project ppVeto noCancel 1 2 9

end gpp_plugin
